import Mathlib

/-!
Verification of the Authentication & Session Security subsystem of the
Golang-HR-management repository, as a shallow embedding in Lean 4.

The definitions below are translated from the Go sources:
* `internal/security` (password policy, JWT issuance/validation, OTP,
  rate limiter, login-attempt manager, session blacklist, permissions),
* `internal/delivery/http/handler/auth_handler.go` (Login, Verify2FA,
  RefreshToken, VerifyOTP),
* `internal/delivery/http/middleware/middleware.go` (JWTAuth),
* `internal/infrastructure/cache/redis.go` (RateLimit),
* `internal/delivery/http/response` (response helpers).

External primitives that the Go code delegates to other processes or to
cryptographic libraries are modelled explicitly:
* bcrypt verification (`CheckPassword`) and SHA-256 (`HashOTP`) are taken
  as function parameters of the handler models (the handlers only compare
  their outputs);
* `uuid.New()` values (session ids, jwt ids) and generated OTP codes are
  passed in as explicit arguments (the code treats them as opaque fresh
  random strings);
* the Redis cache is modelled as explicit state threaded through the
  handlers; the one place the code inspects a cache *error* (the
  blacklist lookup in `JWTAuth`) is modelled with `Except`.
-/

namespace HRSec

/-! ## Data model (`internal/domain/entity`, `internal/config`) -/

/-- `entity.UserStatus` with its four constants. -/
inductive UserStatus
  | active
  | inactive
  | suspended
  | pending
deriving DecidableEq, Repr

/-- The fields of `entity.User` that the authentication flows read. -/
structure User where
  id : String
  email : String
  /-- stored bcrypt hash (column `password`) -/
  password : String
  status : UserStatus
  twoFactorEnabled : Bool
deriving DecidableEq, Repr

/-- `config.JWTConfig`. Durations are modelled as integer nanoseconds. -/
structure JWTConfig where
  accessSecret : String
  refreshSecret : String
  accessTokenExpiry : Int
  refreshTokenExpiry : Int
  issuer : String
  audience : String
deriving DecidableEq, Repr

/-! ## Token issuer / validator (`internal/security`, JWT section) -/

/-- `security.TokenClaims`: custom claims plus the embedded
`jwt.RegisteredClaims` that `GenerateTokenPair` fills in. -/
structure TokenClaims where
  userID : String
  email : String
  roles : List String
  permissions : List String
  sessionID : String
  tokenType : String
  issuer : String
  subject : String
  audience : String
  expiresAt : Int
  issuedAt : Int
  notBefore : Int
  jwtID : String
deriving DecidableEq, Repr

/-- A signed JWS as the code produces it: the claims, the header `alg`,
and the HMAC key it was signed with.  Signature verification against a
candidate secret is key equality (an HMAC signature verifies exactly when
the verifier uses the signing key). -/
structure SignedToken where
  claims : TokenClaims
  alg : String
  key : String
deriving DecidableEq, Repr

/-- `security.TokenPair`. -/
structure TokenPair where
  accessToken : SignedToken
  refreshToken : SignedToken
  expiresAt : Int
  tokenType : String
deriving DecidableEq, Repr

/-- The keyfunc in `validateToken` accepts only `*jwt.SigningMethodHMAC`. -/
def isHMAC (alg : String) : Bool :=
  alg == "HS256" || alg == "HS384" || alg == "HS512"

/-- `security.GenerateTokenPair`.  `sessionID`, `jtiAccess`, `jtiRefresh`
stand for the three `uuid.New()` calls; `now` is `time.Now()`.  The
refresh claims set only `UserID`, `SessionID`, `TokenType` and the
registered claims, so `email`/`roles`/`permissions` are the Go zero
values. -/
def GenerateTokenPair (userID email : String) (roles permissions : List String)
    (jwtCfg : JWTConfig) (sessionID jtiAccess jtiRefresh : String) (now : Int) :
    TokenPair :=
  let accessClaims : TokenClaims :=
    { userID := userID
      email := email
      roles := roles
      permissions := permissions
      sessionID := sessionID
      tokenType := "access"
      issuer := jwtCfg.issuer
      subject := userID
      audience := jwtCfg.audience
      expiresAt := now + jwtCfg.accessTokenExpiry
      issuedAt := now
      notBefore := now
      jwtID := jtiAccess }
  let refreshClaims : TokenClaims :=
    { userID := userID
      email := ""
      roles := []
      permissions := []
      sessionID := sessionID
      tokenType := "refresh"
      issuer := jwtCfg.issuer
      subject := userID
      audience := jwtCfg.audience
      expiresAt := now + jwtCfg.refreshTokenExpiry
      issuedAt := now
      notBefore := now
      jwtID := jtiRefresh }
  { accessToken := ⟨accessClaims, "HS256", jwtCfg.accessSecret⟩
    refreshToken := ⟨refreshClaims, "HS256", jwtCfg.refreshSecret⟩
    expiresAt := now + jwtCfg.accessTokenExpiry
    tokenType := "Bearer" }

/-- `security.validateToken`.  `jwt.ParseWithClaims` checks the signing
method, the signature, and the registered `exp`/`nbf` claims (valid while
`now < exp` and `nbf ≤ now`); the function then checks `TokenType`
against `expectedType`. -/
def validateToken (tok : SignedToken) (secret expectedType : String) (now : Int) :
    Except String TokenClaims :=
  if !isHMAC tok.alg then .error "unexpected signing method"
  else if tok.key != secret then .error "failed to parse token: signature is invalid"
  else if tok.claims.expiresAt ≤ now then .error "failed to parse token: token is expired"
  else if now < tok.claims.notBefore then .error "failed to parse token: token is not valid yet"
  else if tok.claims.tokenType != expectedType then .error "invalid token type"
  else .ok tok.claims

/-- `security.ValidateAccessToken`. -/
def ValidateAccessToken (tok : SignedToken) (jwtCfg : JWTConfig) (now : Int) :
    Except String TokenClaims :=
  validateToken tok jwtCfg.accessSecret "access" now

/-- `security.ValidateRefreshToken`. -/
def ValidateRefreshToken (tok : SignedToken) (jwtCfg : JWTConfig) (now : Int) :
    Except String TokenClaims :=
  validateToken tok jwtCfg.refreshSecret "refresh" now

/-- Whether an `Except` result is a success. -/
def exOk {ε α : Type} : Except ε α → Bool
  | .ok _ => true
  | .error _ => false

theorem exOk_eq_true {ε α : Type} {e : Except ε α} :
    exOk e = true ↔ ∃ a, e = .ok a := by
  cases e <;> simp [exOk]

/-- Soundness of `validateToken`: success pins down the signing key, the
method, liveness and the token type. -/
theorem validateToken_ok_iff (tok : SignedToken) (secret expectedType : String)
    (now : Int) (c : TokenClaims) :
    validateToken tok secret expectedType now = .ok c ↔
      (isHMAC tok.alg = true ∧ tok.key = secret ∧ now < tok.claims.expiresAt ∧
        tok.claims.notBefore ≤ now ∧ tok.claims.tokenType = expectedType ∧
        c = tok.claims) := by
  unfold validateToken
  by_cases h1 : isHMAC tok.alg = true <;>
  by_cases h2 : tok.key = secret <;>
  by_cases h3 : tok.claims.expiresAt ≤ now <;>
  by_cases h4 : now < tok.claims.notBefore <;>
  by_cases h5 : tok.claims.tokenType = expectedType <;>
  simp [h1, h2, h3, h4, h5]
  all_goals
    constructor
  · intro h; exact ⟨by omega, by omega, h.symm⟩
  · intro h; exact h.2.2.symm

/-- A validation against the wrong expected type never succeeds. -/
theorem validateToken_type_mismatch (tok : SignedToken) (secret expectedType : String)
    (now : Int) (h : tok.claims.tokenType ≠ expectedType) :
    exOk (validateToken tok secret expectedType now) = false := by
  cases he : validateToken tok secret expectedType now with
  | ok c =>
      exact absurd ((validateToken_ok_iff tok secret expectedType now c).1 he).2.2.2.2.1 h
  | error e => rfl

/-- **C2.** Every pair minted by `GenerateTokenPair` cross-validates to an
error: the access token fails `ValidateRefreshToken` and the refresh token
fails `ValidateAccessToken`; moreover `validateToken` succeeds only when
the token was signed (HMAC) with the exact secret supplied for the
expected type, the token is unexpired and not-yet-valid checks pass, and
its `token_type` claim equals the expected type. -/
theorem C2_cross_type_validation (userID email : String)
    (roles permissions : List String) (jwtCfg : JWTConfig)
    (sessionID jtiAccess jtiRefresh : String) (now t : Int) :
    exOk (ValidateRefreshToken
      (GenerateTokenPair userID email roles permissions jwtCfg
        sessionID jtiAccess jtiRefresh now).accessToken jwtCfg t) = false ∧
    exOk (ValidateAccessToken
      (GenerateTokenPair userID email roles permissions jwtCfg
        sessionID jtiAccess jtiRefresh now).refreshToken jwtCfg t) = false ∧
    (∀ (tok : SignedToken) (secret expectedType : String) (u : Int) (c : TokenClaims),
      validateToken tok secret expectedType u = .ok c →
        tok.key = secret ∧ isHMAC tok.alg = true ∧ u < tok.claims.expiresAt ∧
          tok.claims.notBefore ≤ u ∧ tok.claims.tokenType = expectedType) := by
  refine ⟨?_, ?_, ?_⟩
  · exact validateToken_type_mismatch _ _ _ _ (by simp [GenerateTokenPair])
  · exact validateToken_type_mismatch _ _ _ _ (by simp [GenerateTokenPair])
  · intro tok secret expectedType u c h
    have := (validateToken_ok_iff tok secret expectedType u c).1 h
    exact ⟨this.2.1, this.1, this.2.2.1, this.2.2.2.1, this.2.2.2.2.1⟩

/-- Sample configuration used by concrete witnesses. -/
def sampleCfg : JWTConfig :=
  { accessSecret := "access-secret"
    refreshSecret := "refresh-secret"
    accessTokenExpiry := 900
    refreshTokenExpiry := 604800
    issuer := "hr-system"
    audience := "hr-api" }

/-- Sample token pair used by concrete witnesses. -/
def samplePair : TokenPair :=
  GenerateTokenPair "user-1" "user@example.com" ["employee"] ["users.view"]
    sampleCfg "sid-1" "jti-a" "jti-r" 0

/-- Witness for C2 at a concrete pair and a concrete successful
validation. -/
theorem C2_cross_type_validation_witness :
    exOk (ValidateRefreshToken samplePair.accessToken sampleCfg 5) = false ∧
    exOk (ValidateAccessToken samplePair.refreshToken sampleCfg 5) = false ∧
    (samplePair.accessToken.key = "access-secret" ∧
      isHMAC samplePair.accessToken.alg = true ∧
      (5 : Int) < samplePair.accessToken.claims.expiresAt ∧
      samplePair.accessToken.claims.notBefore ≤ (5 : Int) ∧
      samplePair.accessToken.claims.tokenType = "access") := by
  have h := C2_cross_type_validation "user-1" "user@example.com" ["employee"]
    ["users.view"] sampleCfg "sid-1" "jti-a" "jti-r" 0 5
  refine ⟨h.1, h.2.1, ?_⟩
  exact h.2.2 samplePair.accessToken "access-secret" "access" 5
    samplePair.accessToken.claims rfl

/-! ## Permission matching (`security.HasPermission` and friends)

Slugs are modelled as `List Char` so that the string-prefix and
string-suffix operations of the Go code (`strings.HasPrefix`,
`strings.HasSuffix`, `strings.TrimSuffix`) have directly computable
counterparts. -/

abbrev Slug := List Char

/-- View a string literal as a slug. -/
def slug (s : String) : Slug := s.toList

/-- The body of the loop in `security.HasPermission`: one held permission
`p` grants `requiredPermission` if it is equal to it, is the global
wildcard `"*"`, or ends in `".*"` and the trimmed stem is a string prefix
of the requirement. -/
def matchesPermission (p requiredPermission : Slug) : Bool :=
  p == requiredPermission || p == slug "*" ||
    ((slug ".*").isSuffixOf p &&
      (p.take (p.length - 2)).isPrefixOf requiredPermission)

/-- `security.HasPermission`. -/
def HasPermission (userPermissions : List Slug) (requiredPermission : Slug) : Bool :=
  userPermissions.any fun p => matchesPermission p requiredPermission

/-- `security.HasAnyPermission`. -/
def HasAnyPermission (userPermissions requiredPermissions : List Slug) : Bool :=
  requiredPermissions.any fun rp => HasPermission userPermissions rp

/-- `security.HasAllPermissions`. -/
def HasAllPermissions (userPermissions requiredPermissions : List Slug) : Bool :=
  requiredPermissions.all fun rp => HasPermission userPermissions rp

/-- Modelled from the spec: the matching rule claimed in §4.7 — a held
slug matches a requirement if identical, or the global wildcard `"*"`,
or a wildcard parent in the sense that `"module.*"` matches
`"module.action"` (the requirement continues the stem with a literal
dot). -/
def claimedMatches (p requiredPermission : Slug) : Bool :=
  p == requiredPermission || p == slug "*" ||
    ((slug ".*").isSuffixOf p &&
      ((p.take (p.length - 2)) ++ slug ".").isPrefixOf requiredPermission)

/-! ## Password policy (`security.PasswordValidator`)

The Go code classifies runes with `unicode.IsUpper` / `IsLower` /
`IsNumber` / `IsPunct`-or-`IsSymbol`; the model restricts the character
classes to their ASCII fragments (the inputs of interest are ASCII
passwords), and `len(password)` is the UTF-8 byte length. -/

/-- `unicode.IsPunct(c) || unicode.IsSymbol(c)` on ASCII: a printable
character that is neither a letter nor a digit nor a space. -/
def isSpecialChar (c : Char) : Bool :=
  33 ≤ c.toNat && c.toNat ≤ 126 && !(c.isAlpha || c.isDigit)

/-- The five distinct error messages `PasswordValidator.Validate` can
return, one per violated rule. -/
inductive PasswordViolation
  | tooShort
  | missingUppercase
  | missingLowercase
  | missingNumber
  | missingSpecial
deriving DecidableEq, Repr

/-- `security.PasswordValidator`. -/
structure PasswordValidator where
  MinLength : Nat
  RequireUppercase : Bool
  RequireLowercase : Bool
  RequireNumber : Bool
  RequireSpecial : Bool
deriving DecidableEq, Repr

/-- `security.DefaultPasswordValidator`. -/
def DefaultPasswordValidator : PasswordValidator :=
  { MinLength := 8
    RequireUppercase := true
    RequireLowercase := true
    RequireNumber := true
    RequireSpecial := true }

/-- `PasswordValidator.Validate`: the length check first, then one check
per required class, each returning immediately with its own error. -/
def PasswordValidator.Validate (v : PasswordValidator) (password : String) :
    Option PasswordViolation :=
  if password.utf8ByteSize < v.MinLength then some .tooShort
  else
    let hasUpper := password.data.any Char.isUpper
    let hasLower := password.data.any Char.isLower
    let hasNumber := password.data.any Char.isDigit
    let hasSpecial := password.data.any isSpecialChar
    if v.RequireUppercase && !hasUpper then some .missingUppercase
    else if v.RequireLowercase && !hasLower then some .missingLowercase
    else if v.RequireNumber && !hasNumber then some .missingNumber
    else if v.RequireSpecial && !hasSpecial then some .missingSpecial
    else none

/-- Modelled from the spec: `validate(password) -> ok | violation-list`
— the list of every violated rule, in the order in which the code checks
the rules. -/
def violationList (v : PasswordValidator) (password : String) :
    List PasswordViolation :=
  (if password.utf8ByteSize < v.MinLength then [PasswordViolation.tooShort] else []) ++
  (if v.RequireUppercase && !password.data.any Char.isUpper then
    [PasswordViolation.missingUppercase] else []) ++
  (if v.RequireLowercase && !password.data.any Char.isLower then
    [PasswordViolation.missingLowercase] else []) ++
  (if v.RequireNumber && !password.data.any Char.isDigit then
    [PasswordViolation.missingNumber] else []) ++
  (if v.RequireSpecial && !password.data.any isSpecialChar then
    [PasswordViolation.missingSpecial] else [])

/-! ## HTTP responses (`internal/delivery/http/response`)

Only the caller-observable fields: status code, the `ErrorInfo.Code`
(absent on success), and the i18n message key passed to the helper. -/

structure HttpResponse where
  status : Nat
  errorCode : Option String
  messageKey : String
deriving DecidableEq, Repr

/-- `response.Unauthorized`. -/
def unauthorized (messageKey : String) : HttpResponse :=
  ⟨401, some "UNAUTHORIZED", messageKey⟩

/-- `response.OK`. -/
def okResp (messageKey : String) : HttpResponse :=
  ⟨200, none, messageKey⟩

/-- `response.BadRequest`. -/
def badRequest (messageKey : String) : HttpResponse :=
  ⟨400, some "BAD_REQUEST", messageKey⟩

/-- `response.InternalError`. -/
def internalError : HttpResponse :=
  ⟨500, some "INTERNAL_ERROR", "common.internal_error"⟩

/-- `response.Error(429, "ACCOUNT_LOCKED", "auth.account_locked", ...)`
as `AuthHandler.Login` emits it. -/
def accountLocked : HttpResponse :=
  ⟨429, some "ACCOUNT_LOCKED", "auth.account_locked"⟩

/-! ## OTP verification (`security.VerifyOTP`, `AuthHandler.VerifyOTP`)

`security.HashOTP` is SHA-256; the handler models take the hash function
as a parameter `hashOTP` and only ever compare its outputs. -/

/-- `security.VerifyOTP`. -/
def VerifyOTP (hashOTP : String → String) (otp storedHash : String) : Bool :=
  hashOTP otp == storedHash

/-- The three observable outcomes of `AuthHandler.VerifyOTP`
(`otp.expired` / `otp.invalid` as 400s, `otp.verified` as 200). -/
inductive OtpOutcome
  | expired
  | invalid
  | verified
deriving DecidableEq, Repr

/-- `AuthHandler.VerifyOTP` over the cache entry stored under
`otp:<email>:<type>`: `GetOTP` miss answers `otp.expired`; a hash
mismatch answers `otp.invalid` and leaves the entry untouched; a match
deletes the entry (`DeleteOTP`) and answers `otp.verified`. -/
def verifyOTPHandler (hashOTP : String → String) (stored : Option String)
    (submitted : String) : OtpOutcome × Option String :=
  match stored with
  | none => (.expired, none)
  | some storedHash =>
      if VerifyOTP hashOTP submitted storedHash then (.verified, none)
      else (.invalid, some storedHash)

/-- The response the handler sends for each outcome. -/
def otpResponse : OtpOutcome → HttpResponse
  | .expired => badRequest "otp.expired"
  | .invalid => badRequest "otp.invalid"
  | .verified => okResp "otp.verified"

/-- The cache entry left after `n` submissions of the same (wrong or
right) code. -/
def iterateVerifyOTP (hashOTP : String → String) (submitted : String) :
    Nat → Option String → Option String
  | 0, st => st
  | n + 1, st =>
      iterateVerifyOTP hashOTP submitted n (verifyOTPHandler hashOTP st submitted).2

/-! ## Sliding-window rate limiter (`RedisCache.RateLimit`)

The per-key Redis sorted set is modelled as the list of its member
scores (`UnixNano` timestamps). -/

abbrev RateWindow := List Int

structure RateLimitOut where
  allowed : Bool
  remaining : Int
  window : RateWindow
deriving DecidableEq, Repr

/-- `RedisCache.RateLimit`: one pipeline doing
`ZREMRANGEBYSCORE key 0 (now-window)`, `ZCARD`, `ZADD key now now`,
`EXPIRE key window`.  The count compared against the limit is the
cardinality after the prune and before the `ZADD`; the `ZADD` happens on
every call, allowed or not (`ZADD` of an existing member is a no-op for
cardinality). -/
def RateLimit (state : RateWindow) (now limit window : Int) : RateLimitOut :=
  let pruned := state.filter fun t => !(0 ≤ t && t ≤ now - window)
  let count : Int := pruned.length
  let newState := if pruned.contains now then pruned else pruned ++ [now]
  let allowed := count < limit
  let remaining := if limit - count - 1 < 0 then 0 else limit - count - 1
  ⟨allowed, remaining, newState⟩

/-! ## Login attempt governor (`security.LoginAttemptManager`)

The Redis counter `login_attempts:<email>` is an optional
(count, expiry) pair; an entry whose expiry has passed behaves as
absent (Redis self-expiry). -/

structure CounterEntry where
  count : Nat
  expiresAt : Int
deriving DecidableEq, Repr

abbrev AttemptState := Option CounterEntry

/-- Resolve Redis self-expiry: an entry at or past its expiry is gone. -/
def liveEntry (s : AttemptState) (now : Int) : AttemptState :=
  match s with
  | none => none
  | some e => if e.expiresAt ≤ now then none else some e

/-- `LoginAttemptManager.RecordFailedAttempt`: `INCR` (a missing key
starts from 0), then `EXPIRE key lockoutDuration` only when the new
count is 1. -/
def RecordFailedAttempt (s : AttemptState) (now lockoutDuration : Int) :
    Nat × AttemptState :=
  match liveEntry s now with
  | none => (1, some ⟨1, now + lockoutDuration⟩)
  | some e => (e.count + 1, some ⟨e.count + 1, e.expiresAt⟩)

/-- `LoginAttemptManager.GetAttempts`: cache miss counts as 0. -/
def GetAttempts (s : AttemptState) (now : Int) : Nat :=
  match liveEntry s now with
  | none => 0
  | some e => e.count

/-- `LoginAttemptManager.IsLocked` (the boolean part; the remaining-TTL
component only feeds the error message). -/
def IsLocked (s : AttemptState) (now : Int) (maxLoginAttempts : Nat) : Bool :=
  maxLoginAttempts ≤ GetAttempts s now

/-- `LoginAttemptManager.ClearAttempts`: `DEL`. -/
def ClearAttempts : AttemptState := none

/-! ## Session blacklist (`security.SessionBlacklist`)

The negative cache is the set of blacklisted session ids; entry TTLs
only bound storage and are not needed by the claims below. -/

abbrev Blacklist := List String

/-- `SessionBlacklist.Add` (`SET blacklist:<sid> true EX ttl`). -/
def blacklistAdd (b : Blacklist) (sessionID : String) : Blacklist :=
  if b.contains sessionID then b else sessionID :: b

/-- `SessionBlacklist.IsBlacklisted` (`EXISTS blacklist:<sid>`) when the
cache is reachable. -/
def isBlacklisted (b : Blacklist) (sessionID : String) : Bool :=
  b.contains sessionID

/-! ## Handler models (`internal/delivery/http/handler/auth_handler.go`)

DB lookups are modelled as the `Option User` row the query returns
(`sql.ErrNoRows` is `none`); DB/cache transport errors are out of the
model except where a claim is about them.  `roles`/`permissions` stand
for the result of `getUserRolesAndPermissions`. -/

/-- Cache state touched by `AuthHandler.Login`: the failed-attempt
counter for the request email and the 2FA OTP entry `otp:<email>`. -/
structure LoginState where
  attempts : AttemptState
  otp : Option String
deriving DecidableEq, Repr

structure LoginOut where
  resp : HttpResponse
  tokens : Option TokenPair
  state : LoginState
deriving DecidableEq, Repr

/-- `AuthHandler.Login`.  `checkPassword` models
`bcrypt.CompareHashAndPassword` (`security.CheckPassword`); `otpCode`
the generated OTP; `sessionID`/`jtiAccess`/`jtiRefresh` the fresh
uuids; `now` the clock. -/
def Login (checkPassword : String → String → Bool) (hashOTP : String → String)
    (jwtCfg : JWTConfig) (maxLoginAttempts : Nat) (lockoutDuration : Int)
    (userByEmail : Option User) (roles permissions : List String)
    (reqPassword : String) (otpCode sessionID jtiAccess jtiRefresh : String)
    (now : Int) (st : LoginState) : LoginOut :=
  if IsLocked st.attempts now maxLoginAttempts then
    ⟨accountLocked, none, st⟩
  else
    match userByEmail with
    | none =>
        ⟨unauthorized "auth.login_failed", none,
          { st with attempts := (RecordFailedAttempt st.attempts now lockoutDuration).2 }⟩
    | some user =>
        if !checkPassword reqPassword user.password then
          ⟨unauthorized "auth.login_failed", none,
            { st with attempts := (RecordFailedAttempt st.attempts now lockoutDuration).2 }⟩
        else if user.status != UserStatus.active then
          ⟨unauthorized "auth.account_inactive", none, st⟩
        else if user.twoFactorEnabled then
          ⟨okResp "auth.two_factor_required", none,
            { st with otp := some (hashOTP otpCode) }⟩
        else
          ⟨okResp "auth.login_success",
            some (GenerateTokenPair user.id user.email roles permissions jwtCfg
              sessionID jtiAccess jtiRefresh now),
            { st with attempts := ClearAttempts }⟩

structure Verify2FAOut where
  resp : HttpResponse
  tokens : Option TokenPair
  otp : Option String
deriving DecidableEq, Repr

/-- `AuthHandler.Verify2FA` over the OTP entry `otp:<email>`: cache miss
answers `otp.expired`; a hash mismatch answers `otp.invalid`; on a match
the entry is deleted, the user row is loaded and a token pair is minted
— the handler performs no `Status` check. -/
def Verify2FA (hashOTP : String → String) (jwtCfg : JWTConfig)
    (userByEmail : Option User) (roles permissions : List String)
    (reqCode : String) (otpEntry : Option String)
    (sessionID jtiAccess jtiRefresh : String) (now : Int) : Verify2FAOut :=
  match otpEntry with
  | none => ⟨badRequest "otp.expired", none, none⟩
  | some storedHash =>
      if !VerifyOTP hashOTP reqCode storedHash then
        ⟨badRequest "otp.invalid", none, some storedHash⟩
      else
        match userByEmail with
        | none => ⟨internalError, none, none⟩
        | some user =>
            ⟨okResp "auth.login_success",
              some (GenerateTokenPair user.id user.email roles permissions jwtCfg
                sessionID jtiAccess jtiRefresh now),
              none⟩

structure RefreshOut where
  resp : HttpResponse
  tokens : Option TokenPair
  blacklist : Blacklist
deriving DecidableEq, Repr

/-- `AuthHandler.RefreshToken`: validate the refresh token, load the
user by the token's `user_id`, check `Status`, mint a new pair under the
fresh `freshSessionID`, and blacklist the presented token's session id
before responding. -/
def RefreshToken (jwtCfg : JWTConfig) (userByID : Option User)
    (roles permissions : List String) (reqToken : SignedToken)
    (freshSessionID jtiAccess jtiRefresh : String) (now : Int)
    (blacklist : Blacklist) : RefreshOut :=
  match ValidateRefreshToken reqToken jwtCfg now with
  | .error _ => ⟨unauthorized "auth.token_expired", none, blacklist⟩
  | .ok claims =>
      match userByID with
      | none => ⟨unauthorized "auth.token_invalid", none, blacklist⟩
      | some user =>
          if user.status != UserStatus.active then
            ⟨unauthorized "auth.account_inactive", none, blacklist⟩
          else
            ⟨okResp "auth.refresh_success",
              some (GenerateTokenPair user.id user.email roles permissions jwtCfg
                freshSessionID jtiAccess jtiRefresh now),
              blacklistAdd blacklist claims.sessionID⟩

/-! ## Authenticated-request gate (`middleware.JWTAuth`) -/

inductive CacheErr
  | unavailable
deriving DecidableEq, Repr

inductive GateResult
  | rejected (resp : HttpResponse)
  | passed (claims : TokenClaims)
deriving DecidableEq, Repr

/-- `middleware.JWTAuth`, starting after bearer extraction from the
`Authorization` header: validate the access token, then consult the
blacklist; the Go code rejects only when `err == nil && isBlacklisted`,
so a lookup error falls through to the authenticated branch. -/
def JWTAuth (jwtCfg : JWTConfig) (tok : SignedToken) (now : Int)
    (lookup : String → Except CacheErr Bool) : GateResult :=
  match ValidateAccessToken tok jwtCfg now with
  | .error _ => .rejected (unauthorized "auth.token_expired")
  | .ok claims =>
      match lookup claims.sessionID with
      | .ok true => .rejected (unauthorized "auth.token_invalid")
      | .ok false => .passed claims
      | .error _ => .passed claims

/-! ## Claim C7: wildcard permission matching -/

/-- **C7 (counterexample).** The claim's "exactly when" fails: the code
trims `".*"` and tests a raw string prefix, so the held slug
`"payroll.*"` also grants the requirement `"payrollx"`, which is neither
identical, nor the global wildcard, nor of the `module.action` shape
under the module `payroll`. -/
theorem C7_counterexample :
    HasPermission [slug "payroll.*"] (slug "payrollx") = true ∧
    claimedMatches (slug "payroll.*") (slug "payrollx") = false := by
  decide

/-- **C7 (amended).** `HasPermission` succeeds exactly when some held
slug is identical to the requirement, is the global wildcard `"*"`, or
ends in `".*"` with its stem a *string* prefix of the requirement (no
dot boundary is enforced, so `"payroll.*"` over-approximates the
claimed `module.action` rule).  The claimed rule is included in the
implemented one, and the spec's two examples hold: `"payroll.*"`
satisfies `"payroll.approve"` and does not satisfy `"reports.view"`. -/
theorem C7_wildcard_matching (userPermissions : List Slug)
    (requiredPermission : Slug) :
    (HasPermission userPermissions requiredPermission = true ↔
      ∃ p ∈ userPermissions, p = requiredPermission ∨ p = slug "*" ∨
        (slug ".*" <:+ p ∧ p.take (p.length - 2) <+: requiredPermission)) ∧
    (∀ p r : Slug, claimedMatches p r = true → matchesPermission p r = true) ∧
    HasPermission [slug "payroll.*"] (slug "payroll.approve") = true ∧
    HasPermission [slug "payroll.*"] (slug "reports.view") = false := by
  refine ⟨?_, ?_, by decide, by decide⟩
  · simp [HasPermission, matchesPermission, List.any_eq_true,
      List.isSuffixOf_iff_suffix, List.isPrefixOf_iff_prefix, or_assoc]
  · intro p r h
    simp only [claimedMatches, matchesPermission, Bool.or_eq_true, beq_iff_eq,
      Bool.and_eq_true, List.isPrefixOf_iff_prefix,
      List.isSuffixOf_iff_suffix] at h ⊢
    rcases h with h | ⟨hsuf, hpre⟩
    · exact Or.inl h
    · exact Or.inr ⟨hsuf, (List.prefix_append _ _).trans hpre⟩

/-- Witness for C7 (amended): the claimed rule instance
`"payroll.*"` versus `"payroll.approve"` is granted by the code. -/
theorem C7_wildcard_matching_witness :
    matchesPermission (slug "payroll.*") (slug "payroll.approve") = true := by
  exact (C7_wildcard_matching [] (slug "x")).2.1 (slug "payroll.*")
    (slug "payroll.approve") (by decide)

/-! ## Claim C8: password policy violations -/

/-- **C8 (counterexample).** The validator returns only the first
violation: for `"abcdefgh"` three classes are missing (uppercase,
number, special), yet the result carries only the uppercase error, so
the failure result is not the full violation list. -/
theorem C8_counterexample :
    (DefaultPasswordValidator.Validate "abcdefgh").toList ≠
      violationList DefaultPasswordValidator "abcdefgh" ∧
    DefaultPasswordValidator.Validate "abcdefgh" =
      some PasswordViolation.missingUppercase ∧
    violationList DefaultPasswordValidator "abcdefgh" =
      [PasswordViolation.missingUppercase, PasswordViolation.missingNumber,
        PasswordViolation.missingSpecial] := by
  decide

/-- **C8 (amended).** The validator checks the minimum length and all
four character classes, but reports only the *first* violation in the
fixed order length, uppercase, lowercase, number, special: its result is
the head of the full violation list; in particular it answers ok (none)
exactly when no rule is violated. -/
theorem C8_first_violation (v : PasswordValidator) (password : String) :
    v.Validate password = (violationList v password).head? ∧
    (v.Validate password = none ↔ violationList v password = []) := by
  have h : v.Validate password = (violationList v password).head? := by
    unfold PasswordValidator.Validate violationList
    by_cases h1 : password.utf8ByteSize < v.MinLength <;>
    by_cases h2 : (v.RequireUppercase && !password.data.any Char.isUpper) = true <;>
    by_cases h3 : (v.RequireLowercase && !password.data.any Char.isLower) = true <;>
    by_cases h4 : (v.RequireNumber && !password.data.any Char.isDigit) = true <;>
    by_cases h5 : (v.RequireSpecial && !password.data.any isSpecialChar) = true <;>
    simp [h1, h2, h3, h4, h5]
  refine ⟨h, ?_⟩
  rw [h]
  exact List.head?_eq_none_iff

/-! ## Claim C4: OTP verification -/

/-- **C4 (counterexample).** There is no attempt counter: six wrong
submissions leave the stored entry untouched, and a seventh submission
with the correct code still verifies — the claimed force-deletion after
about five failures does not exist in the code. -/
theorem C4_counterexample :
    iterateVerifyOTP id "000000" 6 (some "123456") = some "123456" ∧
    (verifyOTPHandler id (iterateVerifyOTP id "000000" 6 (some "123456"))
      "123456").1 = OtpOutcome.verified := by
  decide

/-- **C4 (amended).** OTP verification behaves as claimed except for the
attempt bound: a cache miss answers `expired`; a hash match deletes the
entry (single use — an immediate retry of the same code answers
`expired`) and answers `ok`; a hash mismatch answers `invalid` but
leaves the entry unchanged, so any number of wrong guesses is accepted
until the entry's TTL removes it (no attempt counter, no
force-deletion). -/
theorem C4_verify_otp (hashOTP : String → String) (submitted storedHash : String) :
    verifyOTPHandler hashOTP none submitted = (.expired, none) ∧
    (hashOTP submitted = storedHash →
      verifyOTPHandler hashOTP (some storedHash) submitted = (.verified, none) ∧
      verifyOTPHandler hashOTP
        (verifyOTPHandler hashOTP (some storedHash) submitted).2 submitted =
        (.expired, none)) ∧
    (hashOTP submitted ≠ storedHash →
      verifyOTPHandler hashOTP (some storedHash) submitted =
        (.invalid, some storedHash)) ∧
    (∀ n : Nat, hashOTP submitted ≠ storedHash →
      iterateVerifyOTP hashOTP submitted n (some storedHash) = some storedHash) := by
  refine ⟨rfl, ?_, ?_, ?_⟩
  · intro hmatch
    simp [verifyOTPHandler, VerifyOTP, hmatch]
  · intro hmiss
    simp [verifyOTPHandler, VerifyOTP, hmiss]
  · intro n hmiss
    induction n with
    | zero => rfl
    | succ k ih =>
        simpa [iterateVerifyOTP, verifyOTPHandler, VerifyOTP, hmiss] using ih

/-- Witness for C4 (amended) at concrete codes (hash taken as the
identity for the witness). -/
theorem C4_verify_otp_witness :
    verifyOTPHandler id (some "123456") "123456" = (OtpOutcome.verified, none) ∧
    verifyOTPHandler id (some "123456") "000000" =
      (OtpOutcome.invalid, some "123456") ∧
    iterateVerifyOTP id "000000" 3 (some "123456") = some "123456" := by
  have hok := C4_verify_otp id "123456" "123456"
  have hbad := C4_verify_otp id "000000" "123456"
  exact ⟨(hok.2.1 rfl).1, hbad.2.2.1 (by decide), hbad.2.2.2 3 (by decide)⟩

/-! ## Claim C6: sliding-window rate limiting -/

/-- A check whose whole window content is still fresh prunes nothing,
and a new timestamp is appended whether or not the check is allowed. -/
theorem RateLimit_keep_all (l : List Int) (now limit window : Int)
    (hin : ∀ t ∈ l, 0 ≤ t ∧ now - window < t) (hnm : now ∉ l) :
    (RateLimit l now limit window).allowed = decide ((l.length : Int) < limit) ∧
    (RateLimit l now limit window).window = l ++ [now] := by
  have hf : l.filter (fun t => !(0 ≤ t && t ≤ now - window)) = l := by
    apply List.filter_eq_self.2
    intro a ha
    have := hin a ha
    simp only [Bool.not_eq_true', Bool.and_eq_false_iff, decide_eq_false_iff_not,
      not_le]
    right
    omega
  unfold RateLimit
  simp only [hf]
  simp [hnm]

/-- A check made once every stored timestamp has aged out of the window
prunes everything and is allowed (for a positive limit). -/
theorem RateLimit_drop_all (l : List Int) (now limit window : Int)
    (hout : ∀ t ∈ l, 0 ≤ t ∧ t ≤ now - window) (hpos : (0 : Int) < limit) :
    (RateLimit l now limit window).allowed = true := by
  have hf : l.filter (fun t => !(0 ≤ t && t ≤ now - window)) = [] := by
    apply List.filter_eq_nil_iff.2
    intro a ha
    have := hout a ha
    simp
    omega
  unfold RateLimit
  simp only [hf]
  simp [hpos]

/-- **C6 (counterexample).** The current timestamp is added even when
the check is denied: with three fresh timestamps already stored, a
fourth check is denied yet leaves four members behind, refuting "adds
the current timestamp only when the check is allowed". -/
theorem C6_counterexample :
    (RateLimit [1, 2, 3] 4 3 60).allowed = false ∧
    (RateLimit [1, 2, 3] 4 3 60).window = [1, 2, 3, 4] := by
  decide

/-- **C6 (amended).** Each check prunes timestamps with
`0 ≤ t ≤ now − window`, compares the remaining count to the limit, and
then adds the current timestamp *unconditionally* (denied checks also
consume window space).  The claimed scenario still holds: with limit 3
and window 60, four checks inside one window are allowed, allowed,
allowed, denied, and a later check made a full window after the last
request is allowed again. -/
theorem C6_sliding_window (state : RateWindow) (now limit window : Int)
    (t1 t2 t3 t4 t5 : Int) (h0 : 0 ≤ t1) (h12 : t1 < t2) (h23 : t2 < t3)
    (h34 : t3 < t4) (hw : t4 < t1 + 60) (h5 : t4 + 60 ≤ t5) :
    ((RateLimit state now limit window).allowed = true ↔
      (((state.filter fun t => !(0 ≤ t && t ≤ now - window)).length : Int) <
        limit)) ∧
    now ∈ (RateLimit state now limit window).window ∧
    (RateLimit [] t1 3 60).allowed = true ∧
    (RateLimit (RateLimit [] t1 3 60).window t2 3 60).allowed = true ∧
    (RateLimit (RateLimit (RateLimit [] t1 3 60).window t2 3 60).window
      t3 3 60).allowed = true ∧
    (RateLimit (RateLimit (RateLimit (RateLimit [] t1 3 60).window t2 3 60).window
      t3 3 60).window t4 3 60).allowed = false ∧
    (RateLimit (RateLimit (RateLimit (RateLimit (RateLimit [] t1 3 60).window
      t2 3 60).window t3 3 60).window t4 3 60).window t5 3 60).allowed = true := by
  have s1 := RateLimit_keep_all [] t1 3 60 (by intro t ht; cases ht)
    (by intro h; cases h)
  have s2 := RateLimit_keep_all [t1] t2 3 60
    (by intro t ht; simp at ht; omega) (by simp; omega)
  have s3 := RateLimit_keep_all [t1, t2] t3 3 60
    (by intro t ht; simp at ht; rcases ht with h | h <;> omega)
    (by simp; omega)
  have s4 := RateLimit_keep_all [t1, t2, t3] t4 3 60
    (by intro t ht; simp at ht; rcases ht with h | h | h <;> omega)
    (by simp; omega)
  have s5 := RateLimit_drop_all [t1, t2, t3, t4] t5 3 60
    (by intro t ht; simp at ht; rcases ht with h | h | h | h <;> omega)
    (by omega)
  have w1 : (RateLimit [] t1 3 60).window = [t1] := by rw [s1.2]; rfl
  have w2 : (RateLimit [t1] t2 3 60).window = [t1, t2] := by rw [s2.2]; rfl
  have w3 : (RateLimit [t1, t2] t3 3 60).window = [t1, t2, t3] := by rw [s3.2]; rfl
  have w4 : (RateLimit [t1, t2, t3] t4 3 60).window = [t1, t2, t3, t4] := by
    rw [s4.2]; rfl
  refine ⟨?_, ?_, ?_, ?_, ?_, ?_, ?_⟩
  · unfold RateLimit
    simp
  · show now ∈
      (if (state.filter fun t => !(0 ≤ t && t ≤ now - window)).contains now
        then state.filter fun t => !(0 ≤ t && t ≤ now - window)
        else (state.filter fun t => !(0 ≤ t && t ≤ now - window)) ++ [now])
    by_cases hc : (state.filter fun t => !(0 ≤ t && t ≤ now - window)).contains now
    · rw [if_pos hc]
      simpa using hc
    · rw [if_neg hc]
      exact List.mem_append_right _ (List.mem_singleton.2 rfl)
  · rw [s1.1]
    simp
  · rw [w1, s2.1]
    simp
  · rw [w1, w2, s3.1]
    simp
  · rw [w1, w2, w3, s4.1]
    simp
  · rw [w1, w2, w3, w4]
    exact s5

/-- Witness for C6 (amended) at concrete times 0, 10, 20, 30 and 95. -/
theorem C6_sliding_window_witness :
    (RateLimit [] 0 3 60).allowed = true ∧
    (RateLimit (RateLimit (RateLimit (RateLimit [] 0 3 60).window 10 3 60).window
      20 3 60).window 30 3 60).allowed = false ∧
    (RateLimit (RateLimit (RateLimit (RateLimit (RateLimit [] 0 3 60).window
      10 3 60).window 20 3 60).window 30 3 60).window 95 3 60).allowed = true := by
  have h := C6_sliding_window [] 0 3 60 0 10 20 30 95 (by decide) (by decide)
    (by decide) (by decide) (by decide) (by decide)
  exact ⟨h.2.2.1, h.2.2.2.2.2.1, h.2.2.2.2.2.2⟩

/-! ## Claim C5: login-attempt lockout -/

/-- Record a failed attempt at each listed time in order. -/
def recordFailuresAt (lockoutDuration : Int) (times : List Int)
    (s : AttemptState) : AttemptState :=
  times.foldl (fun st t => (RecordFailedAttempt st t lockoutDuration).2) s

/-- A failure recorded while the counter entry is still live increments
the count and keeps the original expiry (the `EXPIRE` runs only on count
1). -/
theorem RecordFailedAttempt_live (c : Nat) (exp now lockoutDuration : Int)
    (h : now < exp) :
    (RecordFailedAttempt (some ⟨c, exp⟩) now lockoutDuration).2 =
      some ⟨c + 1, exp⟩ := by
  simp only [RecordFailedAttempt, liveEntry]
  rw [if_neg (show ¬exp ≤ now by omega)]

/-- **C5.** With `maxAttempts = 5`: five consecutive failed attempts
recorded inside the lockout window lock the email — a sixth login at
`t6` is answered `429 ACCOUNT_LOCKED` with no tokens, whatever the
submitted password verifies to; and a successful login while the
counter is below the threshold deletes the counter, so the failure
count reads 0 afterwards. -/
theorem C5_lockout (checkPassword : String → String → Bool)
    (hashOTP : String → String) (jwtCfg : JWTConfig) (lockoutDuration : Int)
    (user : User) (roles permissions : List String)
    (reqPassword otpCode sessionID jtiAccess jtiRefresh : String)
    (otpEntry : Option String) (t1 t2 t3 t4 t5 t6 : Int)
    (_h12 : t1 ≤ t2) (h23 : t2 ≤ t3) (h34 : t3 ≤ t4) (h45 : t4 ≤ t5)
    (h56 : t5 ≤ t6) (hlive : t6 < t1 + lockoutDuration)
    (s : AttemptState) (t7 : Int)
    (hbelow : IsLocked s t7 5 = false)
    (hpw : checkPassword reqPassword user.password = true)
    (hactive : user.status = UserStatus.active)
    (h2fa : user.twoFactorEnabled = false) :
    IsLocked (recordFailuresAt lockoutDuration [t1, t2, t3, t4, t5] none) t6 5 =
      true ∧
    (Login checkPassword hashOTP jwtCfg 5 lockoutDuration (some user) roles
      permissions reqPassword otpCode sessionID jtiAccess jtiRefresh t6
      ⟨recordFailuresAt lockoutDuration [t1, t2, t3, t4, t5] none, otpEntry⟩).resp =
      accountLocked ∧
    (Login checkPassword hashOTP jwtCfg 5 lockoutDuration (some user) roles
      permissions reqPassword otpCode sessionID jtiAccess jtiRefresh t6
      ⟨recordFailuresAt lockoutDuration [t1, t2, t3, t4, t5] none, otpEntry⟩).tokens =
      none ∧
    (Login checkPassword hashOTP jwtCfg 5 lockoutDuration (some user) roles
      permissions reqPassword otpCode sessionID jtiAccess jtiRefresh t7
      ⟨s, otpEntry⟩).resp = okResp "auth.login_success" ∧
    (Login checkPassword hashOTP jwtCfg 5 lockoutDuration (some user) roles
      permissions reqPassword otpCode sessionID jtiAccess jtiRefresh t7
      ⟨s, otpEntry⟩).state.attempts = none ∧
    GetAttempts (Login checkPassword hashOTP jwtCfg 5 lockoutDuration (some user)
      roles permissions reqPassword otpCode sessionID jtiAccess jtiRefresh t7
      ⟨s, otpEntry⟩).state.attempts t7 = 0 := by
  have q1 : (RecordFailedAttempt none t1 lockoutDuration).2 =
      some ⟨1, t1 + lockoutDuration⟩ := rfl
  have q2 := RecordFailedAttempt_live 1 (t1 + lockoutDuration) t2 lockoutDuration
    (by omega)
  have q3 := RecordFailedAttempt_live 2 (t1 + lockoutDuration) t3 lockoutDuration
    (by omega)
  have q4 := RecordFailedAttempt_live 3 (t1 + lockoutDuration) t4 lockoutDuration
    (by omega)
  have q5 := RecordFailedAttempt_live 4 (t1 + lockoutDuration) t5 lockoutDuration
    (by omega)
  have ha5 : recordFailuresAt lockoutDuration [t1, t2, t3, t4, t5] none =
      some ⟨5, t1 + lockoutDuration⟩ := by
    simp only [recordFailuresAt, List.foldl, q1, q2, q3, q4, q5]
  have hlocked : IsLocked
      (recordFailuresAt lockoutDuration [t1, t2, t3, t4, t5] none) t6 5 = true := by
    rw [ha5]
    unfold IsLocked GetAttempts
    simp only [liveEntry]
    have hnot : ¬t1 + lockoutDuration ≤ t6 := by omega
    simp [hnot]
  refine ⟨hlocked, ?_, ?_, ?_, ?_, ?_⟩
  · simp [Login, hlocked]
  · simp [Login, hlocked]
  · simp [Login, hbelow, hpw, hactive, h2fa]
  · simp [Login, hbelow, hpw, hactive, h2fa, ClearAttempts]
  · simp [Login, hbelow, hpw, hactive, h2fa, ClearAttempts, GetAttempts, liveEntry]

/-- Witness for C5 with failures at times 0–4, the locked check at 5,
and an unlocked successful login from a clear counter at 0. -/
theorem C5_lockout_witness :
    IsLocked (recordFailuresAt 900 [0, 1, 2, 3, 4] none) 5 5 = true ∧
    (Login (fun p h => p == h) id sampleCfg 5 900
      (some ⟨"user-1", "user@example.com", "pw", UserStatus.active, false⟩)
      ["employee"] ["users.view"] "pw" "111111" "sid-5" "ja5" "jr5" 5
      ⟨recordFailuresAt 900 [0, 1, 2, 3, 4] none, none⟩).resp = accountLocked ∧
    (Login (fun p h => p == h) id sampleCfg 5 900
      (some ⟨"user-1", "user@example.com", "pw", UserStatus.active, false⟩)
      ["employee"] ["users.view"] "pw" "111111" "sid-5" "ja5" "jr5" 0
      ⟨none, none⟩).state.attempts = none := by
  have h := C5_lockout (fun p h => p == h) id sampleCfg 900
    ⟨"user-1", "user@example.com", "pw", UserStatus.active, false⟩
    ["employee"] ["users.view"] "pw" "111111" "sid-5" "ja5" "jr5" none
    0 1 2 3 4 5 (by decide) (by decide) (by decide) (by decide) (by decide)
    (by decide) none 0 (by decide) (by decide) rfl rfl
  exact ⟨h.1, h.2.1, h.2.2.2.2.1⟩

/-! ## Claim C1: tokens only for active identities -/

/-- An active sample user with two-factor disabled. -/
def sampleUser : User :=
  ⟨"user-1", "user@example.com", "pw", UserStatus.active, false⟩

/-- A concrete `Verify2FA` call for a *suspended* user whose OTP entry
matches the submitted code (hash modelled as the identity for
concreteness). -/
def suspended2FACall : Verify2FAOut :=
  Verify2FA id sampleCfg
    (some ⟨"user-9", "susp@example.com", "pw-hash", UserStatus.suspended, true⟩)
    ["employee"] ["users.view"] "123456" (some "123456") "sid-9" "ja9" "jr9" 0

/-- **C1 (counterexample).** `Verify2FA` never checks `Status`: a
suspended user who completes the OTP challenge receives a full token
pair and a 200 login-success response, contradicting the claim that
every token-minting login operation refuses non-active identities. -/
theorem C1_counterexample :
    suspended2FACall.resp = okResp "auth.login_success" ∧
    suspended2FACall.tokens.isSome = true := by
  decide

/-- **C1 (amended).** Password login and refresh issue tokens only when
the user's status is `active`, answering `401 auth.account_inactive`
when the status check is the failing one; two-factor verification,
however, re-checks nothing: once the OTP matches and the user row
exists it mints a token pair whatever the status is. -/
theorem C1_status_gate (checkPassword : String → String → Bool)
    (hashOTP : String → String) (jwtCfg : JWTConfig) (maxLoginAttempts : Nat)
    (lockoutDuration : Int) (user : User) (roles permissions : List String)
    (reqPassword otpCode sessionID jtiAccess jtiRefresh reqCode storedHash : String)
    (now : Int) (st : LoginState) (reqToken : SignedToken) (bl : Blacklist) :
    ((Login checkPassword hashOTP jwtCfg maxLoginAttempts lockoutDuration
        (some user) roles permissions reqPassword otpCode sessionID jtiAccess
        jtiRefresh now st).tokens.isSome = true →
      user.status = UserStatus.active) ∧
    (IsLocked st.attempts now maxLoginAttempts = false →
      checkPassword reqPassword user.password = true →
      user.status ≠ UserStatus.active →
      (Login checkPassword hashOTP jwtCfg maxLoginAttempts lockoutDuration
        (some user) roles permissions reqPassword otpCode sessionID jtiAccess
        jtiRefresh now st).resp = unauthorized "auth.account_inactive" ∧
      (Login checkPassword hashOTP jwtCfg maxLoginAttempts lockoutDuration
        (some user) roles permissions reqPassword otpCode sessionID jtiAccess
        jtiRefresh now st).tokens = none) ∧
    ((RefreshToken jwtCfg (some user) roles permissions reqToken sessionID
        jtiAccess jtiRefresh now bl).tokens.isSome = true →
      user.status = UserStatus.active) ∧
    (exOk (ValidateRefreshToken reqToken jwtCfg now) = true →
      user.status ≠ UserStatus.active →
      (RefreshToken jwtCfg (some user) roles permissions reqToken sessionID
        jtiAccess jtiRefresh now bl).resp = unauthorized "auth.account_inactive" ∧
      (RefreshToken jwtCfg (some user) roles permissions reqToken sessionID
        jtiAccess jtiRefresh now bl).tokens = none) ∧
    (hashOTP reqCode = storedHash →
      (Verify2FA hashOTP jwtCfg (some user) roles permissions reqCode
        (some storedHash) sessionID jtiAccess jtiRefresh now).tokens.isSome =
        true) := by
  refine ⟨?_, ?_, ?_, ?_, ?_⟩
  · intro htok
    by_cases hl : IsLocked st.attempts now maxLoginAttempts
    · simp [Login, hl] at htok
    · by_cases hpw : checkPassword reqPassword user.password
      · by_cases hs : user.status = UserStatus.active
        · exact hs
        · simp [Login, hl, hpw, hs] at htok
      · simp [Login, hl, hpw] at htok
  · intro hl hpw hs
    constructor <;> simp [Login, hl, hpw, hs]
  · intro htok
    cases hv : ValidateRefreshToken reqToken jwtCfg now with
    | error e => simp [RefreshToken, hv] at htok
    | ok claims =>
        by_cases hs : user.status = UserStatus.active
        · exact hs
        · simp [RefreshToken, hv, hs] at htok
  · intro hok hs
    obtain ⟨claims, hv⟩ := exOk_eq_true.1 hok
    constructor <;> simp [RefreshToken, hv, hs]
  · intro hmatch
    simp [Verify2FA, VerifyOTP, hmatch]

/-- Witness for C1 (amended): a concrete password login that does mint
tokens has an active user, and a concrete matching 2FA verification
mints tokens. -/
theorem C1_status_gate_witness :
    sampleUser.status = UserStatus.active ∧
    (Verify2FA id sampleCfg (some sampleUser) ["employee"] ["users.view"]
      "654321" (some "654321") "sid-3" "ja3" "jr3" 0).tokens.isSome = true := by
  have h := C1_status_gate (fun p hsh => p == hsh) id sampleCfg 5 900 sampleUser
    ["employee"] ["users.view"] "pw" "111111" "sid-3" "ja3" "jr3" "654321"
    "654321" 0 ⟨none, none⟩ samplePair.refreshToken []
  exact ⟨h.1 (by decide), h.2.2.2.2 rfl⟩

/-! ## Claim C3: refresh rotation revokes the old session -/

/-- Adding a session id to the blacklist makes it blacklisted. -/
theorem blacklistAdd_isBlacklisted (b : Blacklist) (s : String) :
    isBlacklisted (blacklistAdd b s) s = true := by
  unfold blacklistAdd isBlacklisted
  by_cases hc : s ∈ b <;> simp [hc]

/-- **C3.** A successful refresh blacklists the presented token's
session id before the response is assembled, mints the new pair under
the fresh session id (distinct from the old one, as `uuid.New()` never
repeats an issued id), and afterwards the `JWTAuth` gate, reading that
blacklist, rejects any otherwise-valid access token carrying the old
session id. -/
theorem C3_refresh_rotation (jwtCfg : JWTConfig) (user : User)
    (roles permissions : List String) (reqToken : SignedToken)
    (freshSessionID jtiAccess jtiRefresh : String) (now : Int) (bl : Blacklist)
    (hval : ValidateRefreshToken reqToken jwtCfg now = .ok reqToken.claims)
    (hactive : user.status = UserStatus.active)
    (hfresh : freshSessionID ≠ reqToken.claims.sessionID) :
    (RefreshToken jwtCfg (some user) roles permissions reqToken freshSessionID
      jtiAccess jtiRefresh now bl).resp = okResp "auth.refresh_success" ∧
    (RefreshToken jwtCfg (some user) roles permissions reqToken freshSessionID
      jtiAccess jtiRefresh now bl).tokens =
      some (GenerateTokenPair user.id user.email roles permissions jwtCfg
        freshSessionID jtiAccess jtiRefresh now) ∧
    isBlacklisted (RefreshToken jwtCfg (some user) roles permissions reqToken
      freshSessionID jtiAccess jtiRefresh now bl).blacklist
      reqToken.claims.sessionID = true ∧
    (GenerateTokenPair user.id user.email roles permissions jwtCfg
      freshSessionID jtiAccess jtiRefresh now).accessToken.claims.sessionID ≠
      reqToken.claims.sessionID ∧
    (GenerateTokenPair user.id user.email roles permissions jwtCfg
      freshSessionID jtiAccess jtiRefresh now).refreshToken.claims.sessionID ≠
      reqToken.claims.sessionID ∧
    (∀ (tok : SignedToken) (t : Int) (c : TokenClaims),
      ValidateAccessToken tok jwtCfg t = .ok c →
      c.sessionID = reqToken.claims.sessionID →
      JWTAuth jwtCfg tok t
        (fun sid => .ok (isBlacklisted (RefreshToken jwtCfg (some user) roles
          permissions reqToken freshSessionID jtiAccess jtiRefresh now
          bl).blacklist sid)) =
        .rejected (unauthorized "auth.token_invalid")) := by
  have hout : RefreshToken jwtCfg (some user) roles permissions reqToken
      freshSessionID jtiAccess jtiRefresh now bl =
      ⟨okResp "auth.refresh_success",
        some (GenerateTokenPair user.id user.email roles permissions jwtCfg
          freshSessionID jtiAccess jtiRefresh now),
        blacklistAdd bl reqToken.claims.sessionID⟩ := by
    simp [RefreshToken, hval, hactive]
  refine ⟨by rw [hout], by rw [hout], ?_, hfresh, hfresh, ?_⟩
  · rw [hout]
    exact blacklistAdd_isBlacklisted bl reqToken.claims.sessionID
  · intro tok t c hv hsid
    have hbl : isBlacklisted (RefreshToken jwtCfg (some user) roles permissions
        reqToken freshSessionID jtiAccess jtiRefresh now bl).blacklist
        c.sessionID = true := by
      rw [hout, hsid]
      exact blacklistAdd_isBlacklisted bl reqToken.claims.sessionID
    simp [JWTAuth, hv, hbl]

/-- Witness for C3: a concrete refresh of `samplePair`'s refresh token,
after which the old access token is rejected by the gate. -/
theorem C3_refresh_rotation_witness :
    (RefreshToken sampleCfg (some sampleUser) ["employee"] ["users.view"]
      samplePair.refreshToken "sid-2" "ja2" "jr2" 5 []).resp =
      okResp "auth.refresh_success" ∧
    isBlacklisted (RefreshToken sampleCfg (some sampleUser) ["employee"]
      ["users.view"] samplePair.refreshToken "sid-2" "ja2" "jr2" 5 []).blacklist
      "sid-1" = true ∧
    JWTAuth sampleCfg samplePair.accessToken 5
      (fun sid => .ok (isBlacklisted (RefreshToken sampleCfg (some sampleUser)
        ["employee"] ["users.view"] samplePair.refreshToken "sid-2" "ja2" "jr2"
        5 []).blacklist sid)) =
      .rejected (unauthorized "auth.token_invalid") := by
  have h := C3_refresh_rotation sampleCfg sampleUser ["employee"] ["users.view"]
    samplePair.refreshToken "sid-2" "ja2" "jr2" 5 [] rfl rfl (by decide)
  exact ⟨h.1, h.2.2.1, h.2.2.2.2.2 samplePair.accessToken 5
    samplePair.accessToken.claims rfl rfl⟩

/-! ## Claim C9: unknown email and wrong password are indistinguishable -/

/-- **C9.** An unknown-email login and a known-email wrong-password
login (each below its lockout threshold) produce byte-identical
responses — 401, error code `UNAUTHORIZED`, message key
`auth.login_failed` — and neither produces tokens. -/
theorem C9_no_enumeration (checkPassword : String → String → Bool)
    (hashOTP : String → String) (jwtCfg : JWTConfig) (maxLoginAttempts : Nat)
    (lockoutDuration : Int) (user : User) (roles permissions : List String)
    (reqPassword otpCode sessionID jtiAccess jtiRefresh : String)
    (now1 now2 : Int) (st1 st2 : LoginState)
    (h1 : IsLocked st1.attempts now1 maxLoginAttempts = false)
    (h2 : IsLocked st2.attempts now2 maxLoginAttempts = false)
    (hwrong : checkPassword reqPassword user.password = false) :
    (Login checkPassword hashOTP jwtCfg maxLoginAttempts lockoutDuration none
      roles permissions reqPassword otpCode sessionID jtiAccess jtiRefresh now1
      st1).resp =
      (Login checkPassword hashOTP jwtCfg maxLoginAttempts lockoutDuration
        (some user) roles permissions reqPassword otpCode sessionID jtiAccess
        jtiRefresh now2 st2).resp ∧
    (Login checkPassword hashOTP jwtCfg maxLoginAttempts lockoutDuration none
      roles permissions reqPassword otpCode sessionID jtiAccess jtiRefresh now1
      st1).resp = unauthorized "auth.login_failed" ∧
    (Login checkPassword hashOTP jwtCfg maxLoginAttempts lockoutDuration none
      roles permissions reqPassword otpCode sessionID jtiAccess jtiRefresh now1
      st1).tokens = none ∧
    (Login checkPassword hashOTP jwtCfg maxLoginAttempts lockoutDuration
      (some user) roles permissions reqPassword otpCode sessionID jtiAccess
      jtiRefresh now2 st2).tokens = none := by
  refine ⟨?_, ?_, ?_, ?_⟩ <;> simp [Login, h1, h2, hwrong]

/-- Witness for C9 at concrete requests. -/
theorem C9_no_enumeration_witness :
    (Login (fun p hsh => p == hsh) id sampleCfg 5 900 none ["employee"]
      ["users.view"] "guess" "111111" "sid-4" "ja4" "jr4" 0 ⟨none, none⟩).resp =
      (Login (fun p hsh => p == hsh) id sampleCfg 5 900 (some sampleUser)
        ["employee"] ["users.view"] "guess" "111111" "sid-4" "ja4" "jr4" 0
        ⟨none, none⟩).resp := by
  have h := C9_no_enumeration (fun p hsh => p == hsh) id sampleCfg 5 900
    sampleUser ["employee"] ["users.view"] "guess" "111111" "sid-4" "ja4" "jr4"
    0 0 ⟨none, none⟩ ⟨none, none⟩ (by decide) (by decide) (by decide)
  exact h.1

/-! ## Claim C10: the revocation check fails open on cache errors -/

/-- **C10.** When the blacklist lookup returns a cache error during
authenticated-request validation, `JWTAuth` lets an otherwise-valid
token through: the `err == nil && isBlacklisted` guard only rejects on a
successful lookup that answers true. -/
theorem C10_revocation_fail_open (jwtCfg : JWTConfig) (tok : SignedToken)
    (now : Int) (c : TokenClaims) (lookup : String → Except CacheErr Bool)
    (e : CacheErr) (hval : ValidateAccessToken tok jwtCfg now = .ok c)
    (hlookup : lookup c.sessionID = .error e) :
    JWTAuth jwtCfg tok now lookup = .passed c := by
  simp [JWTAuth, hval, hlookup]

/-- Witness for C10: a valid sample access token passes the gate while
the blacklist cache is unavailable. -/
theorem C10_revocation_fail_open_witness :
    JWTAuth sampleCfg samplePair.accessToken 5
      (fun _ => .error CacheErr.unavailable) =
      .passed samplePair.accessToken.claims := by
  exact C10_revocation_fail_open sampleCfg samplePair.accessToken 5
    samplePair.accessToken.claims (fun _ => .error CacheErr.unavailable)
    CacheErr.unavailable rfl rfl

end HRSec
